import Mathlib

/-!
Verification development for the LectureForge frontend job-progress logic.

Shallow embedding of `frontend/lib/api.ts`, `frontend/hooks/useJobStatus.ts`,
the status-merge and WebSocket-retry logic of
`frontend/app/processing/[jobId]/page.tsx`, and the slide navigation of the
`SlideViewer` component. JavaScript strings are Lean `String`s, JavaScript
numbers that the code only ever treats as non-negative integers are `Nat`,
ISO timestamps are abstracted to `Nat` (order-isomorphic to their instants),
`undefined`/`null` are `Option.none`, and JavaScript truthiness is made
explicit: an empty string and the number 0 are falsy.
-/

namespace LectureForge

/-- JavaScript `a || b` on strings: the empty string is falsy. -/
def jsOrStr (a b : String) : String := if a = "" then b else a

/-- JavaScript `a || b` on non-negative numbers: 0 is falsy. -/
def jsOrNat (a b : Nat) : Nat := if a = 0 then b else a

/-- JavaScript truthiness of a possibly-absent string:
`undefined`/`null` and the empty string are falsy. -/
def jsTruthy : Option String → Bool
  | none => false
  | some s => s != ""

/-- String concatenation, kept definitionally on the underlying char lists. -/
def strCat (a b : String) : String := ⟨a.data ++ b.data⟩

/-- `s.slice(n)` on strings, dropping the first `n` characters. -/
def strDropN (s : String) (n : Nat) : String := ⟨s.data.drop n⟩

/-- `pre` is a prefix of `s` (JavaScript `s.startsWith(pre)`). -/
def strStarts (pre s : String) : Bool := pre.data.isPrefixOf s.data

/-- Index of the first occurrence of `needle` in `hay`
(JavaScript `hay.indexOf(needle)`, with `none` for `-1`). -/
def indexOfSub (needle : List Char) : List Char → Option Nat
  | [] => if needle.isPrefixOf ([] : List Char) then some 0 else none
  | c :: t =>
    if needle.isPrefixOf (c :: t) then some 0
    else (indexOfSub needle t).map (· + 1)

/-- ASCII lowercasing of one character (`String.prototype.toLowerCase`
restricted to the ASCII range, which is all the code compares against). -/
def asciiLower (c : Char) : Char :=
  if 'A' ≤ c ∧ c ≤ 'Z' then Char.ofNat (c.toNat + 32) else c

/-- ASCII `toLowerCase` on strings. -/
def strToLowerAscii (s : String) : String := ⟨s.data.map asciiLower⟩

/-! ## Data model (`frontend/lib/api.ts`)

`JobState` is the TS union type on line 1; `SlideState` the union on line 2;
`SlideProgress` the interface on lines 4–10; `JobStatus` (here `Snapshot`)
the interface on lines 36–48, restricted to the fields the merge and the
claims read, with the timestamp abstracted to a `Nat` carried by every
snapshot. -/

/-- The five values of the `JobState` union type (`api.ts` line 1). -/
def jobStateValues : List String :=
  ["pending", "processing", "completed", "failed", "cancelled"]

/-- The four values of the `SlideState` union type (`api.ts` line 2). -/
inductive SlideState
  | pending
  | processing
  | completed
  | failed
deriving DecidableEq

/-- The `SlideProgress` interface (`api.ts` lines 4–10). -/
structure SlideProgress where
  slide_number : Nat
  narration : SlideState
  mcq : SlideState
  video : SlideState
  error : Option String
deriving DecidableEq

/-- One `JobStatus` snapshot as observed over either channel
(`api.ts` lines 36–48). -/
structure Snapshot where
  status : String
  progress : Nat
  slides_progress : Option (List SlideProgress)
  current_step : Option String
  error : Option String
  updated_at : Nat
deriving DecidableEq

/-- Field names of the `JobStatus` wire interface, in declaration order
(`api.ts` lines 36–48). -/
def jobStatusFields : List String :=
  ["job_id", "status", "progress", "current_slide", "total_slides",
   "current_step", "slides_progress", "error",
   "created_at", "updated_at", "completed_at"]

/-- Field names of the `SlideProgress` wire interface, in declaration order
(`api.ts` lines 4–10). -/
def slideProgressFields : List String :=
  ["slide_number", "narration", "mcq", "video", "error"]

/-! ## The merged push/poll view (`app/processing/[jobId]/page.tsx` 31–38)

```
const status = {
  ...((pollStatus as object) || \x7b\x7d),
  ...((wsStatus as object) || \x7b\x7d),
  slides_progress: wsStatus?.slides_progress || pollStatus?.slides_progress || [],
  status: wsStatus?.status || pollStatus?.status || 'Queued',
  progress: wsStatus?.progress || pollStatus?.progress || 0,
};
```
The push (`wsStatus`) object is spread after the poll object, so whenever a
push snapshot exists every field it carries overrides the poll value; the
three listed fields get explicit falsy-fallbacks. -/

/-- `wsStatus?.status` (`undefined` collapses with the falsy empty string). -/
def optStatus : Option Snapshot → String
  | some s => s.status
  | none => ""

/-- `wsStatus?.progress` (`undefined` collapses with the falsy 0). -/
def optProgress : Option Snapshot → Nat
  | some s => s.progress
  | none => 0

/-- `wsStatus?.slides_progress`. -/
def optSlides : Option Snapshot → Option (List SlideProgress)
  | some s => s.slides_progress
  | none => none

/-- The merged status object built on `page.tsx` lines 31–38. -/
structure Merged where
  status : String
  progress : Nat
  slides_progress : List SlideProgress
  current_step : Option String
  error : Option String
  updated_at : Option Nat
deriving DecidableEq

/-- The merge of the push (`ws`) and poll snapshots, exactly as built by the
object literal on `page.tsx` lines 31–38: spread of poll then ws, plus the
three explicit fallback fields. -/
def mergeStatus (ws poll : Option Snapshot) : Merged :=
  { status := jsOrStr (optStatus ws) (jsOrStr (optStatus poll) "Queued")
    progress := jsOrNat (optProgress ws) (jsOrNat (optProgress poll) 0)
    slides_progress := ((optSlides ws).orElse (fun _ => optSlides poll)).getD []
    current_step :=
      match ws with
      | some w => w.current_step
      | none =>
        match poll with
        | some p => p.current_step
        | none => none
    error :=
      match ws with
      | some w => w.error
      | none =>
        match poll with
        | some p => p.error
        | none => none
    updated_at :=
      match ws with
      | some w => some w.updated_at
      | none =>
        match poll with
        | some p => some p.updated_at
        | none => none }

/-! ## Polling (`frontend/hooks/useJobStatus.ts` lines 17–24)

```
refetchInterval: (query) => {
  const status = query.state.data?.status;
  if (status === 'Completed' || status === 'Failed') {
    return false; // Stop polling
  }
  return 2000;
},
```
`none` models returning `false` (polling stops); `some n` a poll every `n`
milliseconds. -/

/-- The `refetchInterval` callback of `useJobStatus`, applied to the query's
last polled data. -/
def refetchInterval (data : Option Snapshot) : Option Nat :=
  match data with
  | some s => if s.status = "Completed" ∨ s.status = "Failed" then none else some 2000
  | none => some 2000

/-! ## WebSocket job-not-found retry (`page.tsx` lines 24–25 and 74–88)

```
const jobNotFoundRetryDelayMs = 2000;
const jobNotFoundMaxRetries = 3;
...
useEffect(() => {
  if (!wsError) { setWsRetrying(false); return; }
  if (wsError.toLowerCase().includes('job not found') && wsRetry < jobNotFoundMaxRetries) {
    setWsRetrying(true);
    setRetryCount((prev) => Math.min(prev + 1, jobNotFoundMaxRetries));
    const timer = setTimeout(() => { setWsRetry((prev) => prev + 1); }, jobNotFoundRetryDelayMs);
    return () => clearTimeout(timer);
  }
  setWsRetrying(false);
}, [wsError, wsRetry]);
```
One `retryEffect` step models one run of the effect together with its timer
firing (the timer's increment of `wsRetry` is what re-triggers the effect);
the returned `Option Nat` is the delay of the timer the run schedules, `none`
when it schedules none. -/

def jobNotFoundRetryDelayMs : Nat := 2000

def jobNotFoundMaxRetries : Nat := 3

/-- `wsError.toLowerCase().includes('job not found')`. -/
def hasJobNotFound (e : String) : Bool :=
  (indexOfSub "job not found".data (strToLowerAscii e).data).isSome

/-- The retry-relevant component state of `ProcessingPage`:
`wsRetry`, `retryCount`, `wsRetrying` (lines 20–22, all initially 0/false). -/
structure RetryState where
  wsRetry : Nat
  retryCount : Nat
  wsRetrying : Bool
deriving DecidableEq

/-- One run of the retry effect on lines 74–88, with its timer folded in. -/
def retryEffect (wsError : Option String) (s : RetryState) : RetryState × Option Nat :=
  match wsError with
  | none => ({ s with wsRetrying := false }, none)
  | some e =>
    if hasJobNotFound e ∧ s.wsRetry < jobNotFoundMaxRetries then
      ({ wsRetry := s.wsRetry + 1,
         retryCount := min (s.retryCount + 1) jobNotFoundMaxRetries,
         wsRetrying := true }, some jobNotFoundRetryDelayMs)
    else ({ s with wsRetrying := false }, none)

/-- The component state after `k` runs of the retry effect under a persistent
WebSocket error `e`, starting from the initial state `⟨0, 0, false⟩`. -/
def retryIter (e : String) : Nat → RetryState
  | 0 => ⟨0, 0, false⟩
  | k + 1 => (retryEffect (some e) (retryIter e k)).1

/-! ## Error parsing and `getJobStatus` (`api.ts` lines 130–143 and 166–172)

A transport `Response` is modelled by its success flag, its JSON body parsed
as an error payload (`none` when the body is not JSON), and the decoded
`JobStatus` it carries on success. `parseError` reads `payload?.detail`, then
`payload?.message`, then the fallback, with JavaScript truthiness. -/

/-- The fields of the error payload that `parseError` reads. -/
structure ErrorPayload where
  detail : Option String
  message : Option String
deriving DecidableEq

/-- A transport response as seen by `getJobStatus`. -/
structure Response where
  ok : Bool
  payload : Option ErrorPayload
  body : Snapshot
deriving DecidableEq

/-- `parseError` (`api.ts` lines 130–143). -/
def parseError (payload : Option ErrorPayload) (fallback : String) : String :=
  match payload with
  | none => fallback
  | some p =>
    if jsTruthy p.detail then p.detail.getD fallback
    else if jsTruthy p.message then p.message.getD fallback
    else fallback

/-- The fallback error text of `getJobStatus` (`api.ts` line 169). -/
def statusFallback : String := "Failed to fetch job status"

/-- `getJobStatus` (`api.ts` lines 166–172): return the decoded body on a
successful response, otherwise throw the parsed error message. -/
def getJobStatus (r : Response) : Except String Snapshot :=
  if r.ok then Except.ok r.body
  else Except.error (parseError r.payload statusFallback)

/-! ## URLs (`api.ts` lines 85–128) -/

/-- `defaultBaseUrl` (`api.ts` line 85). -/
def defaultBaseUrl : String := "http://localhost:8000"

/-- `base.replace(/\/$/, '')`: remove one trailing slash when present. -/
def stripTrailingSlash (s : String) : String :=
  if s.data.getLast? = some '/' then ⟨s.data.dropLast⟩ else s

/-- `getApiBaseUrl` (`api.ts` lines 87–90), with the value of the
`NEXT_PUBLIC_API_URL` environment variable passed explicitly
(`none` = unset). -/
def getApiBaseUrl (env : Option String) : String :=
  stripTrailingSlash (jsOrStr (env.getD "") defaultBaseUrl)

/-- `getWebSocketUrl` (`api.ts` lines 126–128): a template over the job id
with a hard-coded host, taking no configuration input at all. -/
def getWebSocketUrl (jobId : String) : String :=
  strCat "ws://localhost:8000/ws/jobs/" jobId

/-- `joinUrl` (`api.ts` lines 92–100). -/
def joinUrl (base path : String) : String :=
  if path = "" then base
  else if strStarts "/" path then strCat base path
  else strCat (strCat base "/") path

/-- `path.replace(/\\/g, '/')`: every backslash becomes a forward slash. -/
def normalizeSlashes (s : String) : String :=
  ⟨s.data.map (fun c => if c = '\\' then '/' else c)⟩

/-- `getFileUrl` (`api.ts` lines 102–124), with the environment passed
explicitly as in `getApiBaseUrl`. -/
def getFileUrl (env : Option String) (path : Option String) : String :=
  match path with
  | none => ""
  | some p =>
    if p = "" then ""
    else if strStarts "http://" p || strStarts "https://" p then p
    else
      let normalized := normalizeSlashes p
      let relativePath :=
        match indexOfSub "/data/".data normalized.data with
        | some i => strDropN normalized i
        | none =>
          match indexOfSub "/storage/".data normalized.data with
          | some i => strDropN normalized i
          | none => if strStarts "/" normalized then normalized else strCat "/" normalized
      joinUrl (getApiBaseUrl env) relativePath

/-- The claim's case-by-case description of `getFileUrl`, written from its
words: empty input gives the empty string, absolute `http(s)` URLs pass
through unchanged, and otherwise the API base URL is prepended (by plain
concatenation) to the normalized path truncated at the first `/data/`, else
the first `/storage/`, else given a leading slash when relative. -/
def getFileUrlSpec (env : Option String) (path : Option String) : String :=
  match path with
  | none => ""
  | some p =>
    if p = "" then ""
    else if strStarts "http://" p || strStarts "https://" p then p
    else
      let n := normalizeSlashes p
      let rel :=
        match indexOfSub "/data/".data n.data with
        | some i => strDropN n i
        | none =>
          match indexOfSub "/storage/".data n.data with
          | some i => strDropN n i
          | none => if strStarts "/" n then n else strCat "/" n
      strCat (getApiBaseUrl env) rel

/-! ## Slide navigation (`SlideViewer`, lines 13–14 and 38–42)

```
const [currentSlide, setCurrentSlide] = useState(0);
const goToPrevious = () => setCurrentSlide((prev) => Math.max(0, prev - 1));
const goToNext = () => setCurrentSlide((prev) => Math.min(slides.length - 1, prev + 1));
```
The index is an `Int` so that the `prev - 1` inside `Math.max` is the
JavaScript subtraction, not truncated. -/

/-- A navigation click in the slide viewer. -/
inductive NavOp
  | previous
  | next
deriving DecidableEq

/-- One navigation update of `currentSlide` for a deck of `n` slides. -/
def navStep (n : Nat) (i : Int) : NavOp → Int
  | NavOp.previous => max 0 (i - 1)
  | NavOp.next => min ((n : Int) - 1) (i + 1)

/-- The value of `currentSlide` after a sequence of navigation clicks,
starting from the initial index 0. -/
def navRun (n : Nat) (ops : List NavOp) : Int :=
  ops.foldl (navStep n) 0

/-- The poll-side progress in the merged view, as the claim words it:
the poll snapshot's progress when present, else 0. -/
def mergedPollProgress : Option Snapshot → Nat
  | some p => p.progress
  | none => 0

/-- The merged progress as the (amended) claim words it: the push progress
when a push snapshot with nonzero progress exists, else the poll progress
when present, else 0. -/
def mergedProgressSpec (ws poll : Option Snapshot) : Nat :=
  match ws with
  | some w => if w.progress ≠ 0 then w.progress else mergedPollProgress poll
  | none => mergedPollProgress poll

/-- An empty snapshot, used as a placeholder body in concrete responses. -/
def emptySnapshot : Snapshot := ⟨"", 0, none, none, none, 0⟩

/-! ## Theorems -/

/-- C1, claim as stated is false: a push snapshot strictly older than the
poll snapshot (push timestamp 1 < poll timestamp 2) still overrides the
merged view — the merged progress is the stale push value 40, not the poll
value 50, and the merged timestamp stays the push's, so the merged view does
not equal the poll result at T2. -/
theorem c1_counterexample :
    (1 : Nat) < 2 ∧
    (mergeStatus (some ⟨"processing", 40, none, none, none, 1⟩)
        (some ⟨"processing", 50, none, none, none, 2⟩)).progress = 40 ∧
    (mergeStatus (some ⟨"processing", 40, none, none, none, 1⟩)
        (some ⟨"processing", 50, none, none, none, 2⟩)).progress ≠ 50 ∧
    (mergeStatus (some ⟨"processing", 40, none, none, none, 1⟩)
        (some ⟨"processing", 50, none, none, none, 2⟩)).updated_at = some 1 := by
  decide

/-- C1 amended: the merge is not timestamp-based. Whenever a push snapshot
exists its fields override the poll snapshot regardless of the embedded
update timestamps — in particular even when the poll snapshot is strictly
newer — with falsy push fields (empty status, zero progress) falling back to
the poll values. -/
theorem c1_push_overrides_regardless_of_timestamp (w p : Snapshot)
    (_hts : w.updated_at < p.updated_at)
    (hprog : w.progress ≠ 0) (hstat : w.status ≠ "") :
    (mergeStatus (some w) (some p)).progress = w.progress ∧
    (mergeStatus (some w) (some p)).status = w.status ∧
    (mergeStatus (some w) (some p)).updated_at = some w.updated_at ∧
    (mergeStatus (some w) (some p)).current_step = w.current_step ∧
    (mergeStatus (some w) (some p)).error = w.error := by
  refine ⟨?_, ?_, rfl, rfl, rfl⟩
  · simp [mergeStatus, optProgress, jsOrNat, hprog]
  · simp [mergeStatus, optStatus, jsOrStr, hstat]

/-- C1 witness: the amended theorem at a concrete stale push snapshot. -/
theorem c1_witness :
    (mergeStatus (some ⟨"processing", 40, none, none, none, 1⟩)
        (some ⟨"processing", 50, none, none, none, 2⟩)).progress = 40 ∧
    (mergeStatus (some ⟨"processing", 40, none, none, none, 1⟩)
        (some ⟨"processing", 50, none, none, none, 2⟩)).updated_at = some 1 := by
  have h := c1_push_overrides_regardless_of_timestamp
    ⟨"processing", 40, none, none, none, 1⟩
    ⟨"processing", 50, none, none, none, 2⟩
    (by decide) (by decide) (by decide)
  exact ⟨h.1, h.2.2.1⟩

/-- C2, claim as stated is false: a poll snapshot with the terminal
`JobState` value `"cancelled"` (and likewise the lowercase terminal values
`"completed"`/`"failed"` of the declared union type) does not stop polling —
`refetchInterval` still returns 2000 ms rather than `false`. -/
theorem c2_counterexample :
    refetchInterval (some ⟨"cancelled", 100, none, none, none, 5⟩) = some 2000 ∧
    refetchInterval (some ⟨"completed", 100, none, none, none, 5⟩) = some 2000 ∧
    "cancelled" ∈ jobStateValues ∧ "completed" ∈ jobStateValues := by
  decide

/-- C2 amended: polling stops (the refetch interval becomes `false`) exactly
when the poll channel's own last snapshot has status equal to the exact
string `"Completed"` or `"Failed"`; for every other status — including
`"cancelled"` and the lowercase `JobState` values — and while no data has
arrived, polling continues at a 2000 ms interval. The decision reads only
the poll channel's data, never the push channel. -/
theorem c2_poll_stop_condition (s : Snapshot) :
    (refetchInterval (some s) = none ↔ s.status = "Completed" ∨ s.status = "Failed") ∧
    refetchInterval none = some 2000 := by
  refine ⟨?_, rfl⟩
  by_cases h : s.status = "Completed" ∨ s.status = "Failed" <;>
    simp [refetchInterval, h]

/-- C2 witness: the amended theorem at a concrete terminal poll snapshot. -/
theorem c2_witness :
    refetchInterval (some ⟨"Completed", 100, none, none, none, 5⟩) = none := by
  exact (c2_poll_stop_condition ⟨"Completed", 100, none, none, none, 5⟩).1.mpr
    (Or.inl rfl)

/-- C3, claim as stated is false: the merged view's progress is not monotonic.
With the poll channel at progress 50 (timestamp 2), the merged view shows 50;
when a stale push snapshot with progress 40 (timestamp 1 < 2) then arrives,
the merged view drops to 40 — a strictly smaller value than previously
shown. -/
theorem c3_counterexample :
    (mergeStatus none (some ⟨"processing", 50, none, none, none, 2⟩)).progress = 50 ∧
    (mergeStatus (some ⟨"processing", 40, none, none, none, 1⟩)
        (some ⟨"processing", 50, none, none, none, 2⟩)).progress = 40 ∧
    (40 : Nat) < 50 ∧ (1 : Nat) < 2 := by
  decide

/-- C3 amended: no monotonicity is enforced on the merged progress; the
displayed value is purely a selection — the push snapshot's progress whenever
a push snapshot with nonzero progress exists, else the poll snapshot's
progress when present, else 0 — so a stale push snapshot with a smaller
progress value lowers the displayed progress. -/
theorem c3_merged_progress_selection (ws poll : Option Snapshot) :
    (mergeStatus ws poll).progress = mergedProgressSpec ws poll := by
  cases ws with
  | none =>
    cases poll with
    | none => rfl
    | some p =>
      by_cases hp : p.progress = 0 <;>
        simp [mergeStatus, mergedProgressSpec, mergedPollProgress, optProgress, jsOrNat, hp]
  | some w =>
    cases poll with
    | none =>
      by_cases hw : w.progress = 0 <;>
        simp [mergeStatus, mergedProgressSpec, mergedPollProgress, optProgress, jsOrNat, hw]
    | some p =>
      by_cases hw : w.progress = 0 <;> by_cases hp : p.progress = 0 <;>
        simp [mergeStatus, mergedProgressSpec, mergedPollProgress, optProgress, jsOrNat, hw, hp]

/-- Closed form of the retry iteration under a persistent job-not-found
error: after `k` effect runs, `wsRetry` and `retryCount` are `min k 3` and
the retrying flag is up exactly during runs 1 to 3. -/
theorem retryIter_closed (e : String) (he : hasJobNotFound e = true) (k : Nat) :
    retryIter e k =
      if k = 0 then ⟨0, 0, false⟩
      else if k ≤ 3 then ⟨k, k, true⟩
      else ⟨3, 3, false⟩ := by
  induction k with
  | zero => rfl
  | succ k ih =>
    rw [retryIter, ih]
    by_cases h0 : k = 0
    · subst h0
      simp [retryEffect, he, jobNotFoundMaxRetries]
    · by_cases h3 : k ≤ 3
      · simp only [if_neg h0, if_pos h3]
        by_cases hk : k < 3
        · have hs : k + 1 ≤ 3 := by omega
          have hmin : min (k + 1) 3 = k + 1 := by omega
          simp [retryEffect, he, jobNotFoundMaxRetries, hk, hs, hmin]
        · have hk3 : k = 3 := by omega
          subst hk3
          simp [retryEffect, he, jobNotFoundMaxRetries]
      · simp only [if_neg h0, if_neg h3]
        have hns : ¬(k + 1 = 0) := by omega
        have h4 : ¬(k + 1 ≤ 3) := by omega
        simp [retryEffect, he, jobNotFoundMaxRetries, hns, h4]

/-- C4: under a persistent `job not found` WebSocket error the retry loop is
bounded and terminating — the retry counter never exceeds the maximum of 3,
every scheduled backoff timer is the fixed 2000 ms delay and only the first
3 runs schedule one, and from the fourth run on the state is the fixpoint
`⟨3, 3, false⟩`: no further timers, no further retries, and the retrying
flag is down so the not-found error is surfaced. -/
theorem c4_bounded_retry (e : String) (he : hasJobNotFound e = true) :
    jobNotFoundMaxRetries = 3 ∧
    jobNotFoundRetryDelayMs = 2000 ∧
    (∀ k, (retryIter e k).wsRetry = min k 3) ∧
    (∀ k, 4 ≤ k → retryIter e k = ⟨3, 3, false⟩) ∧
    (∀ k, (retryEffect (some e) (retryIter e k)).2 =
      if k < 3 then some jobNotFoundRetryDelayMs else none) := by
  refine ⟨rfl, rfl, ?_, ?_, ?_⟩
  · intro k
    rw [retryIter_closed e he k]
    by_cases h0 : k = 0
    · subst h0; simp
    · by_cases h3 : k ≤ 3
      · simp only [if_neg h0, if_pos h3]
        have : min k 3 = k := by omega
        simp [this]
      · simp only [if_neg h0, if_neg h3]
        have : min k 3 = 3 := by omega
        simp [this]
  · intro k hk
    rw [retryIter_closed e he k]
    have h0 : ¬(k = 0) := by omega
    have h3 : ¬(k ≤ 3) := by omega
    simp [h0, h3]
  · intro k
    rw [retryIter_closed e he k]
    by_cases h0 : k = 0
    · subst h0
      simp [retryEffect, he, jobNotFoundMaxRetries]
    · by_cases h3 : k ≤ 3
      · by_cases hk : k < 3
        · simp [retryEffect, he, jobNotFoundMaxRetries, h0, h3, hk]
        · have hk3 : k = 3 := by omega
          subst hk3
          simp [retryEffect, he, jobNotFoundMaxRetries]
      · have hk : ¬(k < 3) := by omega
        simp [retryEffect, he, jobNotFoundMaxRetries, h0, h3, hk]

/-- C4 witness: the bounded-retry theorem at the concrete error string
`"Job Not Found"` (matched case-insensitively): the fifth run sits at the
`⟨3, 3, false⟩` fixpoint and the first run schedules a 2000 ms timer. -/
theorem c4_witness :
    retryIter "Job Not Found" 5 = ⟨3, 3, false⟩ ∧
    (retryEffect (some "Job Not Found") (retryIter "Job Not Found" 0)).2 = some 2000 := by
  have h := c4_bounded_retry "Job Not Found" (by decide)
  refine ⟨h.2.2.2.1 5 (by omega), ?_⟩
  have h2 := h.2.2.2.2 0
  simpa [jobNotFoundRetryDelayMs] using h2

/-- C5, claim as stated is false: the wire `JobStatus` interface has no
`mode` field, and the per-unit sub-states of `SlideProgress` are named
`narration`, `mcq`, `video` — there are no fields named `quiz` or
`render`. -/
theorem c5_counterexample :
    "mode" ∉ jobStatusFields ∧
    "quiz" ∉ slideProgressFields ∧
    "render" ∉ slideProgressFields := by
  decide

/-- C5 amended: the wire status contract consists of the fields `job_id`,
`status`, `progress` (a number), `current_slide`, `total_slides`,
`current_step`, `slides_progress`, `error` and the timestamps `created_at`,
`updated_at`, `completed_at` — with no `mode` field — and each
`slides_progress` entry carries `slide_number`, an optional `error`, and the
three sub-states named `narration`, `mcq` and `video`, each ranging over
exactly {pending, processing, completed, failed}. -/
theorem c5_wire_fields :
    jobStatusFields =
      ["job_id", "status", "progress", "current_slide", "total_slides",
       "current_step", "slides_progress", "error",
       "created_at", "updated_at", "completed_at"] ∧
    "mode" ∉ jobStatusFields ∧
    slideProgressFields = ["slide_number", "narration", "mcq", "video", "error"] ∧
    (∀ s : SlideState,
      s = SlideState.pending ∨ s = SlideState.processing ∨
      s = SlideState.completed ∨ s = SlideState.failed) := by
  refine ⟨rfl, by decide, rfl, ?_⟩
  intro s
  cases s
  · exact Or.inl rfl
  · exact Or.inr (Or.inl rfl)
  · exact Or.inr (Or.inr (Or.inl rfl))
  · exact Or.inr (Or.inr (Or.inr rfl))

/-- C6, claim as stated is false: before any data arrives on either channel
the merged view's status defaults to the string `"Queued"`, which belongs
neither to the declared `JobState` union nor to the five-member
specification enumeration. -/
theorem c6_counterexample :
    (mergeStatus none none).status = "Queued" ∧
    "Queued" ∉ jobStateValues ∧
    "Queued" ∉ ["Pending", "Processing", "Completed", "Failed", "Cancelled"] := by
  decide

/-- C6 amended: every status the merged view presents is either a status
value reported by one of the two channels or the fixed default `"Queued"`
used while neither channel has produced a truthy status; `"Queued"` lies
outside the five-member enumeration (and the code's `JobState` union uses
the lowercase spellings of the five values). -/
theorem c6_status_source (ws poll : Option Snapshot) :
    ((mergeStatus ws poll).status = "Queued" ∧ "Queued" ∉ jobStateValues) ∨
    (∃ w, ws = some w ∧ (mergeStatus ws poll).status = w.status) ∨
    (∃ p, poll = some p ∧ (mergeStatus ws poll).status = p.status) := by
  cases ws with
  | none =>
    cases poll with
    | none => exact Or.inl ⟨rfl, by decide⟩
    | some p =>
      by_cases hp : p.status = ""
      · refine Or.inl ⟨?_, by decide⟩
        simp [mergeStatus, optStatus, jsOrStr, hp]
      · refine Or.inr (Or.inr ⟨p, rfl, ?_⟩)
        simp [mergeStatus, optStatus, jsOrStr, hp]
  | some w =>
    by_cases hw : w.status = ""
    · cases poll with
      | none =>
        refine Or.inl ⟨?_, by decide⟩
        simp [mergeStatus, optStatus, jsOrStr, hw]
      | some p =>
        by_cases hp : p.status = ""
        · refine Or.inl ⟨?_, by decide⟩
          simp [mergeStatus, optStatus, jsOrStr, hw, hp]
        · refine Or.inr (Or.inr ⟨p, rfl, ?_⟩)
          simp [mergeStatus, optStatus, jsOrStr, hw, hp]
    · refine Or.inr (Or.inl ⟨w, rfl, ?_⟩)
      simp [mergeStatus, optStatus, jsOrStr, hw]

/-- C7: `getJobStatus` returns the decoded status exactly on a successful
transport response; on a failed response it never returns a status and
raises an error whose message is the payload's truthy `detail` field, else
its truthy `message` field, else the fixed fallback text (also used when the
body is not JSON). -/
theorem c7_get_status_contract (ok : Bool) (payload : Option ErrorPayload)
    (body : Snapshot) :
    (ok = true → getJobStatus ⟨ok, payload, body⟩ = Except.ok body) ∧
    (ok = false → ∀ s, getJobStatus ⟨ok, payload, body⟩ ≠ Except.ok s) ∧
    (ok = false → payload = none →
      getJobStatus ⟨ok, payload, body⟩ = Except.error statusFallback) ∧
    (∀ p d, ok = false → payload = some p → p.detail = some d → d ≠ "" →
      getJobStatus ⟨ok, payload, body⟩ = Except.error d) ∧
    (∀ p m, ok = false → payload = some p → jsTruthy p.detail = false →
      p.message = some m → m ≠ "" →
      getJobStatus ⟨ok, payload, body⟩ = Except.error m) ∧
    (∀ p, ok = false → payload = some p → jsTruthy p.detail = false →
      jsTruthy p.message = false →
      getJobStatus ⟨ok, payload, body⟩ = Except.error statusFallback) := by
  refine ⟨?_, ?_, ?_, ?_, ?_, ?_⟩
  · intro h; subst h; rfl
  · intro h s; subst h
    simp [getJobStatus]
  · intro h hp; subst h; subst hp; rfl
  · intro p d h hp hd hne
    subst h; subst hp
    simp [getJobStatus, parseError, hd, jsTruthy, hne]
  · intro p m h hp hdf hm hne
    subst h; subst hp
    have haux : jsTruthy (some m) = true := by simp [jsTruthy, hne]
    simp [getJobStatus, parseError, hdf, hm, haux]
  · intro p h hp hdf hmf
    subst h; subst hp
    simp [getJobStatus, parseError, hdf, hmf]

/-- C7 witness: the contract at two concrete responses — a failed response
whose payload carries a `detail` message, and a successful one. -/
theorem c7_witness :
    getJobStatus ⟨false, some ⟨some "job missing", some "other"⟩, emptySnapshot⟩ =
      Except.error "job missing" ∧
    getJobStatus ⟨true, none, emptySnapshot⟩ = Except.ok emptySnapshot := by
  have h1 := c7_get_status_contract false
    (some ⟨some "job missing", some "other"⟩) emptySnapshot
  have h2 := c7_get_status_contract true none emptySnapshot
  exact ⟨h1.2.2.2.1 ⟨some "job missing", some "other"⟩ "job missing"
    rfl rfl rfl (by decide), h2.1 rfl⟩

/-- C8: the push-channel endpoint is the fixed string
`ws://localhost:8000/ws/jobs/` followed by the job id, built with no
configuration input, while the poll-channel base URL honors the configured
`NEXT_PUBLIC_API_URL` (falling back to the default only when it is unset or
empty) — so with a non-default configured base the two channels target
different hosts. -/
theorem c8_urls :
    (∀ jobId : String,
      getWebSocketUrl jobId = strCat "ws://localhost:8000/ws/jobs/" jobId) ∧
    (∀ e : String, e ≠ "" → stripTrailingSlash e = e →
      getApiBaseUrl (some e) = e) ∧
    getApiBaseUrl none = defaultBaseUrl ∧
    getApiBaseUrl (some "") = defaultBaseUrl ∧
    (getApiBaseUrl (some "http://api.example.com") = "http://api.example.com" ∧
      "http://api.example.com" ≠ defaultBaseUrl) := by
  refine ⟨fun jobId => rfl, ?_, by decide, by decide, by decide, by decide⟩
  intro e hne hstrip
  simp [getApiBaseUrl, jsOrStr, hne, hstrip]

/-- C8 witness: with a configured non-default base URL the poll channel
targets that host while the push URL for a concrete job id stays on the
hard-coded localhost host. -/
theorem c8_witness :
    getApiBaseUrl (some "http://api.example.com:9000") = "http://api.example.com:9000" ∧
    getWebSocketUrl "abc123" = strCat "ws://localhost:8000/ws/jobs/" "abc123" := by
  have h := c8_urls
  exact ⟨h.2.1 "http://api.example.com:9000" (by decide) (by decide),
    h.1 "abc123"⟩

/-- If `indexOfSub` reports `needle` at index `i`, then `needle` is a prefix
of the suffix of `hay` starting at `i`. -/
theorem indexOfSub_isPrefixOf (needle : List Char) :
    ∀ (hay : List Char) (i : Nat), indexOfSub needle hay = some i →
      needle.isPrefixOf (hay.drop i) = true := by
  intro hay
  induction hay with
  | nil =>
    intro i h
    rw [indexOfSub] at h
    split at h
    · rename_i hc
      cases h
      simpa using hc
    · cases h
  | cons c t ih =>
    intro i h
    rw [indexOfSub] at h
    split at h
    · rename_i hc
      cases h
      simpa using hc
    · obtain ⟨j, hj, rfl⟩ := Option.map_eq_some'.mp h
      simpa [List.drop_succ_cons] using ih j hj

/-- A list with prefix `c :: rest` starts with the character `c`. -/
theorem isPrefixOf_head (c : Char) (rest l : List Char)
    (h : List.isPrefixOf (c :: rest) l = true) : ∃ l2, l = c :: l2 := by
  cases l with
  | nil => simp [List.isPrefixOf] at h
  | cons b bs =>
    simp only [List.isPrefixOf, Bool.and_eq_true, beq_iff_eq] at h
    exact ⟨bs, by rw [h.1]⟩

/-- On a path that starts with a slash, `joinUrl` is plain concatenation. -/
theorem joinUrl_eq_strCat (base r : String) (l2 : List Char)
    (hl : r.data = '/' :: l2) : joinUrl base r = strCat base r := by
  have hne : ¬(r = "") := by
    intro he
    subst he
    exact absurd (show ([] : List Char) = '/' :: l2 from hl) (by simp)
  have hs : strStarts "/" r = true := by
    unfold strStarts
    rw [hl]
    show List.isPrefixOf ['/'] ('/' :: l2) = true
    simp [List.isPrefixOf]
  unfold joinUrl
  rw [if_neg hne, if_pos hs]

/-- The suffix of `n` at an index where a slash-initial needle occurs starts
with a slash. -/
theorem strDropN_head (n : String) (i : Nat) (c : Char) (rest : List Char)
    (h : indexOfSub (c :: rest) n.data = some i) :
    ∃ l2, (strDropN n i).data = c :: l2 := by
  have hp := indexOfSub_isPrefixOf (c :: rest) n.data i h
  obtain ⟨l2, hl⟩ := isPrefixOf_head c rest _ hp
  exact ⟨l2, hl⟩

/-- C9: `getFileUrl` satisfies its claimed case-by-case description — empty
or absent input maps to the empty string, absolute `http(s)` URLs pass
through unchanged, and every other path is backslash-normalized, truncated
at the first `/data/` (else `/storage/`) occurrence or given a leading slash
when relative, and prefixed with the configured API base URL. -/
theorem c9_get_file_url (env : Option String) (path : Option String) :
    getFileUrl env path = getFileUrlSpec env path := by
  cases path with
  | none => rfl
  | some p =>
    by_cases hp : p = ""
    · simp [getFileUrl, getFileUrlSpec, hp]
    · by_cases hh : (strStarts "http://" p || strStarts "https://" p) = true
      · simp [getFileUrl, getFileUrlSpec, hp, hh]
      · have hh2 : (strStarts "http://" p || strStarts "https://" p) = false := by
          simpa using hh
        simp only [getFileUrl, getFileUrlSpec, hp, hh2, Bool.false_eq_true,
          if_false, ite_false]
        rcases hd : indexOfSub "/data/".data (normalizeSlashes p).data with _ | i
        · rcases hs : indexOfSub "/storage/".data (normalizeSlashes p).data with _ | j
          · simp only [hd, hs]
            by_cases hsl : strStarts "/" (normalizeSlashes p) = true
            · simp only [hsl, if_true, ite_true]
              obtain ⟨l2, hl⟩ := isPrefixOf_head '/' []
                (normalizeSlashes p).data hsl
              exact joinUrl_eq_strCat _ _ l2 hl
            · have hsl2 : strStarts "/" (normalizeSlashes p) = false := by
                simpa using hsl
              simp only [hsl2, Bool.false_eq_true, if_false, ite_false]
              exact joinUrl_eq_strCat _ _ (normalizeSlashes p).data rfl
          · simp only [hd, hs]
            obtain ⟨l2, hl⟩ := strDropN_head (normalizeSlashes p) j '/'
              "storage/".data hs
            exact joinUrl_eq_strCat _ _ l2 hl
        · simp only [hd]
          obtain ⟨l2, hl⟩ := strDropN_head (normalizeSlashes p) i '/'
            "data/".data hd
          exact joinUrl_eq_strCat _ _ l2 hl

/-- C10: for every non-empty slide deck, after any sequence of
previous/next navigation clicks the current slide index stays within
`[0, number of slides - 1]` — previous clamps at 0 and next clamps at the
last index, so the slide lookup never goes out of range. -/
theorem c10_slide_index_bounds (n : Nat) (ops : List NavOp) (hn : 0 < n) :
    0 ≤ navRun n ops ∧ navRun n ops ≤ (n : Int) - 1 := by
  have key : ∀ (l : List NavOp) (i : Int), 0 ≤ i → i ≤ (n : Int) - 1 →
      0 ≤ l.foldl (navStep n) i ∧ l.foldl (navStep n) i ≤ (n : Int) - 1 := by
    intro l
    induction l with
    | nil => intro i h1 h2; exact ⟨h1, h2⟩
    | cons op rest ih =>
      intro i h1 h2
      rw [List.foldl_cons]
      apply ih
      · cases op with
        | previous => exact le_max_left 0 (i - 1)
        | next =>
          apply le_min
          · omega
          · omega
      · cases op with
        | previous =>
          apply max_le
          · omega
          · omega
        | next => exact min_le_left _ _
  have hn1 : (0 : Int) ≤ (n : Int) - 1 := by omega
  exact key ops 0 le_rfl hn1

/-- C10 witness: the bounds at a concrete 3-slide deck and a concrete click
sequence that pushes against both ends. -/
theorem c10_witness :
    0 < 3 ∧
    0 ≤ navRun 3 [NavOp.next, NavOp.next, NavOp.next, NavOp.previous,
      NavOp.previous, NavOp.previous, NavOp.previous] ∧
    navRun 3 [NavOp.next, NavOp.next, NavOp.next, NavOp.previous,
      NavOp.previous, NavOp.previous, NavOp.previous] ≤ (3 : Int) - 1 := by
  refine ⟨by decide, ?_, ?_⟩
  · exact (c10_slide_index_bounds 3 [NavOp.next, NavOp.next, NavOp.next,
      NavOp.previous, NavOp.previous, NavOp.previous, NavOp.previous]
      (by decide)).1
  · exact (c10_slide_index_bounds 3 [NavOp.next, NavOp.next, NavOp.next,
      NavOp.previous, NavOp.previous, NavOp.previous, NavOp.previous]
      (by decide)).2

end LectureForge
